import Mathlib

/-!
Verification of the excel-ps-batch-export rendering pipeline.

Shallow embedding of the pure/decidable parts of `psd_renderer.py` and
`batch_export.py`: row values, Python-style boolean coercion, layer-name
directive parsing, text position computation, layer-tree traversal,
pre-flight validation, and PSD template matching.  External capabilities
(PIL font rasterisation, PSD binary decoding, the filesystem) are passed in
as explicit oracle functions.  Python floats are modelled exactly over ℚ.
-/

namespace ExcelPs

/-- A scalar cell value as it arrives from the spreadsheet: Python str,
int/float (modelled exactly over ℚ), bool, or None.  pandas NaN cells are
outside this model (IEEE floating point). -/
inductive Value where
  | str (s : String)
  | num (q : ℚ)
  | boolean (b : Bool)
  | none
deriving DecidableEq, Repr

/-- Model of Python str.lower() restricted to the ASCII range used by the
boolean keyword sets. -/
def pyLower (s : String) : String :=
  String.mk (s.data.map Char.toLower)

/-- Model of Python str.strip(): drop whitespace at both ends. -/
def pyStripList (cs : List Char) : List Char :=
  ((cs.dropWhile Char.isWhitespace).reverse.dropWhile Char.isWhitespace).reverse

/-- Model of Python str.strip() on strings. -/
def pyStrip (s : String) : String :=
  String.mk (pyStripList s.data)

/-- Numeric value of a decimal digit character. -/
def digVal (c : Char) : ℕ := c.toNat - '0'.toNat

/-- Natural number denoted by a list of decimal digit characters. -/
def natOfDigits (cs : List Char) : ℕ :=
  cs.foldl (fun acc c => 10 * acc + digVal c) 0

/-- Model of Python float() on an already lower-cased, stripped string,
over exact rationals: optional sign, then digits with an optional decimal
point (at least one digit overall), then an optional exponent part.
Python additionally accepts inf/infinity/nan and digit-group underscores;
those inputs return none here.  For the visibility coercion this agrees
with CPython: inf and nan compare nonzero, and a failed parse likewise
yields True through the generic-truthiness fallback. -/
def pyFloat (s : String) : Option ℚ :=
  let cs := pyStripList s.data
  let sgnCs : ℚ × List Char :=
    match cs with
    | '+' :: rest => (1, rest)
    | '-' :: rest => (-1, rest)
    | _ => (1, cs)
  let sgn := sgnCs.1
  let cs0 := sgnCs.2
  let intPart := cs0.takeWhile Char.isDigit
  let cs1 := cs0.dropWhile Char.isDigit
  let fracSplit : List Char × List Char :=
    match cs1 with
    | '.' :: rest => (rest.takeWhile Char.isDigit, rest.dropWhile Char.isDigit)
    | _ => ([], cs1)
  let fracPart := fracSplit.1
  let cs2 := fracSplit.2
  if intPart.isEmpty && fracPart.isEmpty then Option.none
  else
    let mant : ℚ := sgn * ((natOfDigits intPart : ℚ) +
      (natOfDigits fracPart : ℚ) / (10 : ℚ) ^ fracPart.length)
    match cs2 with
    | [] => some mant
    | 'e' :: rest =>
      let esgnCs : ℤ × List Char :=
        match rest with
        | '+' :: r => (1, r)
        | '-' :: r => (-1, r)
        | _ => (1, rest)
      let eDigits := esgnCs.2.takeWhile Char.isDigit
      let rest2 := esgnCs.2.dropWhile Char.isDigit
      if eDigits.isEmpty || !rest2.isEmpty then Option.none
      else some (mant * (10 : ℚ) ^ (esgnCs.1 * (natOfDigits eDigits : ℤ)))
    | _ => Option.none

/-- Model of Python bool(value): generic truthiness. -/
def pyTruthy : Value → Bool
  | .str s => !s.isEmpty
  | .num q => q != 0
  | .boolean b => b
  | .none => false

/-- The keyword set parsed as True by set_layer_visibility. -/
def trueStrings : List String := ["true", "1", "yes", "on", "t", "y"]

/-- The keyword set parsed as False by set_layer_visibility. -/
def falseStrings : List String := ["false", "0", "no", "off", "f", "n"]

namespace PsdRenderer

/-- Embedding of psd_renderer.set_layer_visibility (the value assigned to
layer.visible as a function of the row value).  The numpy .item() /
pandas .bool() unwrappings at the top of the source are identity on the
plain scalars modelled by Value. -/
def set_layer_visibility : Value → Bool
  | .boolean b => b
  | .str s =>
    let visibilityLower := pyStrip (pyLower s)
    if visibilityLower.isEmpty then false
    else if trueStrings.contains visibilityLower then true
    else if falseStrings.contains visibilityLower then false
    else
      match pyFloat visibilityLower with
      | some numValue => numValue != 0
      | Option.none => pyTruthy (.str s)
  | .num q => q != 0
  | .none => pyTruthy .none

end PsdRenderer

namespace BatchExport

/-- Embedding of batch_export.set_layer_visibility: a non-bool raises
TypeError, a bool is assigned unchanged. -/
def set_layer_visibility : Value → Except String Bool
  | .boolean b => .ok b
  | _ => .error "TypeError: visibility must be a bool"

end BatchExport

/-- The canonical boolean coercion exactly as the claim words it: boolean
passthrough; a string is trimmed and compared case-insensitively against
the true/false keyword sets; an empty or whitespace-only string is false;
any other string is parsed as a number, nonzero giving true, and otherwise
falls back to generic truthiness; a number is true iff nonzero;
null/missing is false. -/
def canonicalCoercion : Value → Bool
  | .boolean b => b
  | .str s =>
    let t := pyStrip (pyLower s)
    if trueStrings.contains t then true
    else if falseStrings.contains t then false
    else if t.isEmpty then false
    else
      match pyFloat t with
      | some q => q != 0
      | Option.none => pyTruthy (.str s)
  | .num q => q != 0
  | .none => false

/-- CJK character test from both sources: the codepoint block 4E00..9FFF. -/
def isCJK (c : Char) : Bool :=
  decide (0x4e00 ≤ c.toNat ∧ c.toNat ≤ 0x9fff)

namespace BatchExport

/-- Embedding of the width loop in batch_export.calculate_text_position:
each CJK character contributes font_size, any other character contributes
half of font_size. -/
def text_width (text : String) (font_size : ℚ) : ℚ :=
  text.data.foldl
    (fun acc c => acc + (if isCJK c then font_size else font_size * (1 / 2))) 0

end BatchExport

/-- The per-character width heuristic exactly as the claim words it: one em
per CJK character and half an em per any other character. -/
def heuristicEmWidth (text : String) (em : ℚ) : ℚ :=
  (text.data.map (fun c => if isCJK c then em else em / 2)).sum

/-- The parameter validation and position arithmetic shared verbatim by
calculate_text_position in psd_renderer.py and batch_export.py, as a
function of the already-measured text width.  The two modules differ only
in how the width is obtained. -/
def text_position_core (text_width layer_width font_size : ℚ)
    (alignment : String) : Except String (ℚ × ℚ) :=
  if font_size ≤ 0 then .error "ValueError: font size must be positive"
  else if layer_width < 0 then .error "ValueError: layer width is negative"
  else if !(["left", "center", "right"].contains alignment) then
    .error "ValueError: bad alignment"
  else
    let x_position : ℚ :=
      if alignment = "center" then (layer_width - text_width) / 2
      else if alignment = "right" then layer_width - text_width
      else 0
    .ok (x_position - font_size * (1 / 100), -(font_size * (26 / 100)))

namespace PsdRenderer

/-- Embedding of psd_renderer.calculate_text_position.  The text width is
draw.textbbox right edge minus left edge under the measurement font, an
external PIL capability passed in as textbboxWidth (text and font size to
width); the module-level PIL import makes the ImportError fallback in the
source unreachable. -/
def calculate_text_position (textbboxWidth : String → ℚ → ℚ) (text : String)
    (layer_width font_size : ℚ) (alignment : String) :
    Except String (ℚ × ℚ) :=
  text_position_core (textbboxWidth text font_size) layer_width font_size
    alignment

/-- Embedding of the single-line branch of psd_renderer.update_text_layer:
the origin handed to draw.text is the computed position shifted by the
layer offset in both axes. -/
def single_line_draw_origin (textbboxWidth : String → ℚ → ℚ)
    (offset : ℚ × ℚ) (text : String) (layer_width font_size : ℚ)
    (alignment : String) : Except String (ℚ × ℚ) :=
  match calculate_text_position textbboxWidth text layer_width font_size
      alignment with
  | .ok xy => .ok (offset.1 + xy.1, offset.2 + xy.2)
  | .error e => .error e

end PsdRenderer

namespace BatchExport

/-- Embedding of batch_export.calculate_text_position: the text width is
the built-in per-character loop, no font metrics are consulted. -/
def calculate_text_position (text : String) (layer_width font_size : ℚ)
    (alignment : String) : Except String (ℚ × ℚ) :=
  text_position_core (text_width text font_size) layer_width font_size
    alignment

end BatchExport

/-- Horizontal alignment origin as the claim words it: left is 0, center
is half the leftover width, right is the full leftover width. -/
def alignedX (text_width layer_width : ℚ) (alignment : String) : ℚ :=
  if alignment = "left" then 0
  else if alignment = "center" then (layer_width - text_width) / 2
  else layer_width - text_width

/-- Model of the Python substring operator: sub in s, as contiguous
character-sublist containment. -/
def containsSub (sub : List Char) : List Char → Bool
  | [] => sub.isEmpty
  | c :: rest => sub.isPrefixOf (c :: rest) || containsSub sub rest

/-- Python sub in s on strings. -/
def pyIn (sub s : String) : Bool :=
  containsSub sub.data s.data

/-- The layout decisions update_text_layer extracts from a text layer's
name: horizontal alignment, paragraph flag, vertical alignment. -/
structure TextLayout where
  alignment : String
  paragraph : Bool
  valign : String
deriving DecidableEq, Repr

namespace PsdRenderer

/-- Embedding of the mode decisions in psd_renderer.update_text_layer:
alignment is center when the substring _c occurs in the layer name, else
right when _r occurs, else left; paragraph mode is taken when the
substring _p occurs; within paragraph mode the vertical start is middle
when _pm occurs, else bottom when _pb occurs, else top. -/
def update_text_layer_mode (name : String) : TextLayout :=
  { alignment :=
      if pyIn "_c" name then "center"
      else if pyIn "_r" name then "right"
      else "left"
    paragraph := pyIn "_p" name
    valign :=
      if pyIn "_pm" name then "middle"
      else if pyIn "_pb" name then "bottom"
      else "top" }

end PsdRenderer

/-- Model of Python str.startswith as character-list prefix testing
(kernel-reducible, unlike String.startsWith). -/
def pyStartsWith (pre s : String) : Bool :=
  pre.data.isPrefixOf s.data

/-- Model of Python str.endswith as reversed prefix testing. -/
def pyEndsWith (suf s : String) : Bool :=
  suf.data.reverse.isPrefixOf s.data.reverse

/-- Model of the Python slice s[1:]. -/
def pyTail (s : String) : String :=
  String.mk (s.data.drop 1)

/-- Model of Python str.split(sep) for a one-character separator: the
empty string splits to one empty part, and n occurrences of the separator
yield n + 1 parts. -/
def splitOnChar (sep : Char) : List Char → List (List Char)
  | [] => [[]]
  | c :: rest =>
    let r := splitOnChar sep rest
    if c = sep then [] :: r
    else
      match r with
      | h :: t => (c :: h) :: t
      | [] => [[c]]

/-- Python str.split(sep) on strings. -/
def pySplit (sep : Char) (s : String) : List String :=
  (splitOnChar sep s.data).map String.mk

/-- The three directive operation kinds. -/
inductive OpKind where
  | visibility
  | text
  | image
deriving DecidableEq, Repr

/-- Embedding of the directive recognition shared by process_layers in
psd_renderer.export_single_image and batch_export.export_single_image:
a layer name acts as a directive iff it starts with the at sign and the
remainder splits on the hash sign into exactly two parts whose second
starts with v, t or i, tested in that order. -/
def parse_directive (layer_name : String) : Option (String × OpKind) :=
  if pyStartsWith "@" layer_name then
    match pySplit '#' (pyTail layer_name) with
    | [field_name, operation_type] =>
      if pyStartsWith "v" operation_type then some (field_name, .visibility)
      else if pyStartsWith "t" operation_type then some (field_name, .text)
      else if pyStartsWith "i" operation_type then some (field_name, .image)
      else Option.none
    | _ => Option.none
  else Option.none

/-- The directive condition exactly as the claim words it: the name starts
with the at sign and the remainder splits on the hash sign into exactly
two parts whose second part starts with t, i, or v. -/
def claimDirective (name : String) : Bool :=
  pyStartsWith "@" name &&
  (let parts := pySplit '#' (pyTail name)
   (parts.length == 2) &&
   (pyStartsWith "t" (parts.getD 1 "") || pyStartsWith "i" (parts.getD 1 "") ||
     pyStartsWith "v" (parts.getD 1 "")))

/-- Model of Python str() on row values, used to build text content and
image paths.  The numeric rendering stands in for CPython's repr; no
verified claim depends on the decimal form of a numeric cell. -/
def pyStr : Value → String
  | .str s => s
  | .num q => toString q
  | .boolean b => if b then "True" else "False"
  | .none => "None"

/-- One drawing effect applied to the output PIL canvas. -/
inductive CompositeOp where
  | imageComposite (path : String) (size : Int × Int) (offset : Int × Int)
  | rasterComposite (layerRaster : String) (offset : Int × Int)
  | textRun (text : String) (origin : ℚ × ℚ)
deriving DecidableEq, Repr

/-- A PSD layer as surfaced by psd-tools: name, pixel size, offset, own
visibility flag, group flag with children, and for a non-group layer the
identity of the bitmap layer.topil() would return (none when topil yields
no image). -/
inductive PLayer where
  | mk (name : String) (size : Int × Int) (offset : Int × Int)
      (visible : Bool) (isGroup : Bool) (children : List PLayer)
      (raster : Option String)

/-- The rendering context threaded through process_layers: composite
operations applied to the canvas so far, and warnings printed so far. -/
structure RenderState where
  ops : List CompositeOp
  warnings : List String
deriving DecidableEq, Repr

/-- Embedding of update_image_layer (identical logic in both modules):
with the layer hidden, an existing path is opened (openOk false models a
PIL open failure raising), resized to the layer size and alpha-composited
at the layer offset; a missing path only prints a warning and composites
nothing. -/
def update_image_layer (fs openOk : String → Bool) (new_image_path : String)
    (size offset : Int × Int) (st : RenderState) :
    Except String RenderState :=
  if fs new_image_path then
    if openOk new_image_path then
      .ok { st with
        ops := st.ops ++ [.imageComposite new_image_path size offset] }
    else .error ("cannot open image: " ++ new_image_path)
  else
    .ok { st with warnings := st.warnings ++
      ["Warning: Image file " ++ new_image_path ++ " does not exist"] }

mutual

/-- Embedding of one iteration of process_layers in
psd_renderer.export_single_image: resolve the directive, if any, then
composite the layer or recurse into its children when it is (still)
visible.  textDraw abstracts the drawing done by update_text_layer, whose
pure mode and position logic is verified separately; a missing row key
models the KeyError pandas raises on row lookup. -/
def processLayer (fs openOk : String → Bool)
    (textDraw : String → String → Except String (List CompositeOp))
    (row : List (String × Value)) (l : PLayer) (st : RenderState) :
    Except String RenderState :=
  match l with
  | .mk name size offset visible isGroup children raster =>
    let step : Except String (Bool × RenderState) :=
      match parse_directive name with
      | some (field_name, op) =>
        match row.lookup field_name with
        | Option.none => .error ("KeyError: " ++ field_name)
        | some v =>
          match op with
          | .visibility => .ok (PsdRenderer.set_layer_visibility v, st)
          | .text =>
            match textDraw name (pyStr v) with
            | .ok tops => .ok (false, { st with ops := st.ops ++ tops })
            | .error e => .error e
          | .image =>
            match update_image_layer fs openOk (pyStr v) size offset st with
            | .ok st2 => .ok (false, st2)
            | .error e => .error e
      | Option.none => .ok (visible, st)
    match step with
    | .error e => .error e
    | .ok (vis, st1) =>
      if vis then
        if isGroup then processLayers fs openOk textDraw row children st1
        else
          match raster with
          | some r =>
            .ok { st1 with ops := st1.ops ++ [.rasterComposite r offset] }
          | Option.none => .ok st1
      else .ok st1

/-- Embedding of the loop of process_layers over a sibling list, threading
the canvas state left to right. -/
def processLayers (fs openOk : String → Bool)
    (textDraw : String → String → Except String (List CompositeOp))
    (row : List (String × Value)) (ls : List PLayer) (st : RenderState) :
    Except String RenderState :=
  match ls with
  | [] => .ok st
  | l :: rest =>
    match processLayer fs openOk textDraw row l st with
    | .ok st1 => processLayers fs openOk textDraw row rest st1
    | .error e => .error e

end

/-- Embedding of collect_psd_variables.process_layers: any name starting
with the at sign whose remainder splits on the hash sign into exactly two
parts contributes its field name, with no constraint on the second part;
groups are recursed into regardless of visibility.  The Python set is
modelled as a list read up to membership. -/
def collect_psd_variables : List PLayer → List String
  | [] => []
  | .mk name _ _ _ isGroup children _ :: rest =>
    (if pyStartsWith "@" name then
      match pySplit '#' (pyTail name) with
      | [field_name, _] => [field_name]
      | _ => []
    else []) ++
    (if isGroup then collect_psd_variables children else []) ++
    collect_psd_variables rest

/-- Embedding of is_image_column. -/
def is_image_column (operation_type : String) : Bool :=
  pyStartsWith "i" operation_type

/-- Embedding of validate_data.check_image_layers: the field names bound
to image directives, recursing into groups. -/
def check_image_layers : List PLayer → List String
  | [] => []
  | .mk name _ _ _ isGroup children _ :: rest =>
    (if pyStartsWith "@" name then
      match pySplit '#' (pyTail name) with
      | [field_name, operation_type] =>
        if is_image_column operation_type then [field_name] else []
      | _ => []
    else []) ++
    (if isGroup then check_image_layers children else []) ++
    check_image_layers rest

/-- The slice of a pandas DataFrame the validation logic reads: column
names, and for each column its cell values in row order. -/
structure DataFrame where
  columns : List String
  colData : String → List Value

/-- Model of pd.notna on plain scalars: false exactly on None.  NaN cells
are outside the Value model. -/
def notna : Value → Bool
  | .none => false
  | _ => true

/-- The image-existence loop of validate_data over one column, carrying
the running row index of Python enumerate: a present, non-blank path that
does not exist on disk yields one error line. -/
def image_col_errors (fs : String → Bool) (image_col : String) :
    ℕ → List Value → List String
  | _, [] => []
  | idx, v :: rest =>
    (if notna v && !(pyStrip (pyStr v)).isEmpty then
      if !fs (pyStr v) then
        ["Image file does not exist: Row " ++ toString (idx + 2) ++
          ", Column " ++ image_col ++ ", Path: " ++ pyStr v]
      else []
    else []) ++ image_col_errors fs image_col (idx + 1) rest

/-- Embedding of psd_renderer.validate_data.  fs is os.path.exists and
psdTree gives the layer tree PSDImage.open yields for a template path.
Python sets become lists read up to membership; the aggregated
missing-columns message keeps no particular set iteration order. -/
def validate_data (fs : String → Bool) (psdTree : String → List PLayer)
    (df : DataFrame) (psd_templates : List String) :
    List String × List String :=
  let templateErrors := psd_templates.filterMap (fun p =>
    if !fs p then some ("PSD template file does not exist: " ++ p)
    else Option.none)
  let present := psd_templates.filter (fun p => fs p)
  let all_psd_variables :=
    present.flatMap (fun p => collect_psd_variables (psdTree p))
  let image_columns :=
    present.flatMap (fun p => check_image_layers (psdTree p))
  let warnings := df.columns.filterMap (fun col =>
    if !all_psd_variables.contains col && col != "File_name" then
      some ("Column " ++ col ++ " in Excel does not exist in PSD template")
    else Option.none)
  let missing := all_psd_variables.filter (fun v => !df.columns.contains v)
  let missingErrors :=
    if missing.isEmpty then []
    else ["PSD template variables missing from Excel: " ++
      String.intercalate ", " missing]
  let imageErrors := image_columns.flatMap (fun image_col =>
    if df.columns.contains image_col then
      image_col_errors fs image_col 0 (df.colData image_col)
    else [])
  (templateErrors ++ missingErrors ++ imageErrors, warnings)

/-- Embedding of report_validation_results: True exactly when there are
no errors; warnings alone still pass. -/
def report_validation_results (errors warnings : List String) : Bool :=
  if errors.isEmpty && warnings.isEmpty then true
  else if !errors.isEmpty then false
  else true

/-- Outcome of a psd_renderer_images run: the process exits with a status
code, or finishes after performing the renders. -/
inductive BatchOutcome where
  | exited (code : ℕ)
  | finished (rendered : List String)
deriving DecidableEq, Repr

/-- Embedding of the control flow of psd_renderer.psd_renderer_images:
validate, sys.exit(1) on any validation error, sys.exit(1) when a
template fails to preload, and only then run the per-row export loop,
abstracted as renderAll yielding the exported file names. -/
def psd_renderer_images (fs : String → Bool) (psdTree : String → List PLayer)
    (loadOk : String → Bool) (df : DataFrame) (matching_psds : List String)
    (renderAll : Unit → List String) : BatchOutcome :=
  let ev := validate_data fs psdTree df matching_psds
  if !report_validation_results ev.1 ev.2 then .exited 1
  else
    let failed := matching_psds.filter (fun p => !loadOk p)
    if !failed.isEmpty then .exited 1
    else .finished (renderAll ())

namespace PsdRenderer

/-- The module-relative bundled font path hard-coded in
calculate_text_position. -/
def defaultMeasurementFontPath : String :=
  "assets/fonts/AlibabaPuHuiTi-2-85-Bold.ttf"

/-- The font object calculate_text_position measures with. -/
inductive MeasureFont where
  | truetypeAt (path : String)
  | pilBuiltinDefault
deriving DecidableEq, Repr

/-- Embedding of the font selection in calculate_text_position: the
configured font is never consulted; the bundled default path is tried and
any failure, missing file or OSError alike, falls back to PIL's built-in
default font.  The second component is the warnings surfaced, which the
source never emits. -/
def measurement_font_choice (fs truetypeOk : String → Bool) :
    MeasureFont × List String :=
  if fs defaultMeasurementFontPath then
    if truetypeOk defaultMeasurementFontPath then
      (.truetypeAt defaultMeasurementFontPath, [])
    else (.pilBuiltinDefault, [])
  else (.pilBuiltinDefault, [])

/-- Embedding of the font load in update_text_layer: ImageFont.truetype
on the configured font, which raises OSError when the file cannot be
opened. -/
def rendering_font_choice (truetypeOk : String → Bool)
    (text_font : String) : Except String String :=
  if truetypeOk text_font then .ok text_font
  else .error ("OSError: cannot open font resource " ++ text_font)

end PsdRenderer

/-- Last index at which a character occurs in a list. -/
def lastIdxOf (c : Char) (cs : List Char) : Option ℕ :=
  ((cs.enum.filter (fun p => p.2 == c)).map (fun p => p.1)).getLast?

/-- Model of os.path.splitext (CPython genericpath._splitext with
separator '/'): split at the last dot, unless every character of the base
name before that dot is itself a dot, leading dots not starting an
extension. -/
def splitext (p : String) : String × String :=
  let cs := p.data
  let sepIndex : ℤ :=
    match lastIdxOf '/' cs with
    | some i => (i : ℤ)
    | Option.none => -1
  match lastIdxOf '.' cs with
  | some dotIndex =>
    if sepIndex < (dotIndex : ℤ) then
      let filenameIndex := (sepIndex + 1).toNat
      if ((cs.drop filenameIndex).take (dotIndex - filenameIndex)).any
          (fun c => c != '.') then
        (String.mk (cs.take dotIndex), String.mk (cs.drop dotIndex))
      else (p, "")
    else (p, "")
  | Option.none => (p, "")

/-- Embedding of get_matching_psds (identical in both modules): keep the
directory-listing entries ending in .psd whose stem, cut at the first
hash sign when one occurs, equals the stem of the spreadsheet argument;
listing order is preserved. -/
def get_matching_psds (excel_file : String) (listing : List String) :
    List String :=
  let base_name := (splitext excel_file).1
  listing.filter (fun f =>
    pyEndsWith ".psd" f &&
    (let name_without_ext := (splitext f).1
     let filePrefix :=
       if name_without_ext.data.contains '#' then
         String.mk (name_without_ext.data.takeWhile (fun c => c != '#'))
       else name_without_ext
     filePrefix == base_name))

/-- The selection key as the claim words it: the part of the base name
before the first hash sign, the whole base name when it contains none. -/
def stemBeforeHash (s : String) : String :=
  String.mk ((splitext s).1.data.takeWhile (fun c => c != '#'))

/-- Fit mode of an image directive. -/
inductive FitMode where
  | cover
  | contain
deriving DecidableEq, Repr

/-- Horizontal letter of a 9-point anchor. -/
inductive HAnchor where
  | l
  | c
  | r
deriving DecidableEq, Repr

/-- Vertical letter of a 9-point anchor. -/
inductive VAnchor where
  | t
  | m
  | b
deriving DecidableEq, Repr

/-- Placement of the scaled content on the output canvas: output size,
content size, and position of the content's top-left corner.  Pixels of
the output outside the content rectangle are fully transparent. -/
structure FitResult where
  outSize : ℚ × ℚ
  contentSize : ℚ × ℚ
  contentPos : ℚ × ℚ
deriving DecidableEq, Repr

/-- Anchor placement along one axis: start, centered, or end of the
leftover space (negative leftover positions a crop window). -/
def hShift : HAnchor → ℚ → ℚ
  | .l, _ => 0
  | .c, leftover => leftover / 2
  | .r, leftover => leftover

/-- Anchor placement along the vertical axis. -/
def vShift : VAnchor → ℚ → ℚ
  | .t, _ => 0
  | .m, leftover => leftover / 2
  | .b, leftover => leftover

/-- Modelled from the spec: scale_image_by_mode (the ImageFitter), which
src/tests/test_image_params.py imports from psd_renderer but which is
absent from src/psd_renderer.py.  Spec 4.4: cover scales preserving
aspect ratio so the image is at least as large as the target in both
axes, then crops to exactly the target size, placing the crop window per
the 9-point anchor; contain scales preserving aspect ratio so the image
fully fits within the target, then pads the remainder with full
transparency, placing the image per the same anchor. -/
def scale_image_by_mode (srcW srcH targetW targetH : ℚ) (mode : FitMode)
    (ha : HAnchor) (va : VAnchor) : FitResult :=
  let scale : ℚ :=
    match mode with
    | .cover => max (targetW / srcW) (targetH / srcH)
    | .contain => min (targetW / srcW) (targetH / srcH)
  let cw := srcW * scale
  let ch := srcH * scale
  { outSize := (targetW, targetH)
    contentSize := (cw, ch)
    contentPos := (hShift ha (targetW - cw), vShift va (targetH - ch)) }

/-- Whether the output pixel at a point carries image content (anything
else is fully transparent padding). -/
def opaqueAt (r : FitResult) (x y : ℚ) : Bool :=
  decide (r.contentPos.1 ≤ x ∧ x < r.contentPos.1 + r.contentSize.1 ∧
    r.contentPos.2 ≤ y ∧ y < r.contentPos.2 + r.contentSize.2)

end ExcelPs

namespace ExcelPs

theorem containsSub_of_isPrefixOf_containsSub {sub1 sub2 : List Char}
    (h : sub1.isPrefixOf sub2) :
    ∀ cs : List Char, containsSub sub2 cs → containsSub sub1 cs := by
  intro cs
  induction cs with
  | nil =>
    intro h2
    simp only [containsSub, List.isEmpty_iff] at h2 ⊢
    subst h2
    rw [List.isPrefixOf_iff_prefix, List.prefix_nil] at h
    simp [h]
  | cons c rest ih =>
    intro h2
    simp only [containsSub, Bool.or_eq_true] at h2 ⊢
    rcases h2 with h2 | h2
    · left
      rw [List.isPrefixOf_iff_prefix] at h h2 ⊢
      exact h.trans h2
    · right
      exact ih h2

/-- C1: for every row value bound to a v directive, psd_renderer's
set_layer_visibility assigns exactly the canonical boolean coercion; but
batch_export's set_layer_visibility raises TypeError on the string
"False" instead of hiding the layer, contradicting the repository's own
test_fixed_business_code.py. -/
theorem c1_visibility_canonical_coercion :
    (∀ v : Value, PsdRenderer.set_layer_visibility v = canonicalCoercion v) ∧
    BatchExport.set_layer_visibility (Value.str "False") =
      Except.error "TypeError: visibility must be a bool" := by
  constructor
  · intro v
    cases v with
    | str s =>
      by_cases hE : (pyStrip (pyLower s)).isEmpty
      · rw [String.isEmpty_iff] at hE
        simp [PsdRenderer.set_layer_visibility, canonicalCoercion, hE,
          trueStrings, falseStrings]
      · simp only [Bool.not_eq_true] at hE
        simp [PsdRenderer.set_layer_visibility, canonicalCoercion, hE]
    | num q => rfl
    | boolean b => rfl
    | none => rfl
  · rfl

theorem foldl_add_map (f : Char → ℚ) (l : List Char) :
    ∀ a : ℚ, l.foldl (fun acc c => acc + f c) a = a + (l.map f).sum := by
  induction l with
  | nil => intro a; simp
  | cons c rest ih =>
    intro a
    simp only [List.foldl_cons, List.map_cons, List.sum_cons, ih]
    ring

/-- C2 counterexample: the claim says the width used for alignment is never
the per-character heuristic of one em per CJK character and half an em per
other character; but for the text composed of one CJK character and one
Latin letter at font size 40, batch_export's width is exactly that
heuristic, 40 + 20 = 60. -/
theorem c2_heuristic_width_counterexample :
    BatchExport.text_width "中a" 40 = heuristicEmWidth "中a" 40 ∧
    BatchExport.text_width "中a" 40 = 60 := by
  have hd : ("中a").data = ['中', 'a'] := rfl
  have h1 : isCJK '中' = true := by decide
  have h2 : isCJK 'a' = false := by decide
  constructor <;>
    simp [BatchExport.text_width, heuristicEmWidth, hd, h1, h2] <;>
    norm_num

/-- C2 amended: in psd_renderer.py the width used for horizontal alignment
is the tight bounding-box width delivered by the font-rendering delegate
(draw.textbbox right edge minus left edge); in batch_export.py the width
used is the per-character heuristic of one em per CJK character and half
an em per other character. -/
theorem c2_text_width_amended :
    (∀ (textbboxWidth : String → ℚ → ℚ) (text : String) (w s : ℚ),
      0 < s → 0 ≤ w →
      PsdRenderer.calculate_text_position textbboxWidth text w s "center" =
        .ok ((w - textbboxWidth text s) / 2 - s * (1 / 100),
          -(s * (26 / 100)))) ∧
    (∀ (text : String) (em : ℚ),
      BatchExport.text_width text em = heuristicEmWidth text em) := by
  constructor
  · intro textbboxWidth text w s hs hw
    have h1 : ¬s ≤ 0 := not_le.mpr hs
    have h2 : ¬w < 0 := not_lt.mpr hw
    simp [PsdRenderer.calculate_text_position, text_position_core, h1, h2]
  · intro text em
    rw [BatchExport.text_width, heuristicEmWidth, foldl_add_map, zero_add]
    induction text.data with
    | nil => simp
    | cons c rest ih =>
      simp only [List.map_cons, List.sum_cons, ih]
      by_cases h : isCJK c
      · simp [h]
      · simp [h]
        ring

/-- C2 amended witness at concrete inputs. -/
theorem c2_text_width_amended_witness :
    PsdRenderer.calculate_text_position (fun _ _ => 7) "a" 10 2 "center" =
      .ok ((10 - 7) / 2 - 2 * (1 / 100), -(2 * (26 / 100))) ∧
    BatchExport.text_width "ab" 4 = heuristicEmWidth "ab" 4 :=
  ⟨c2_text_width_amended.1 (fun _ _ => 7) "a" 10 2 (by norm_num)
      (by norm_num),
    c2_text_width_amended.2 "ab" 4⟩

/-- C5: for every single-line text directive with valid parameters, the
draw origin is alignedX(textWidth, layerWidth, align) + layerOffset.x
minus 0.01 times the font size in x, and layerOffset.y minus 0.26 times
the font size in y. -/
theorem c5_single_line_origin (textbboxWidth : String → ℚ → ℚ)
    (offset : ℚ × ℚ) (text : String) (w s : ℚ) (a : String)
    (hs : 0 < s) (hw : 0 ≤ w)
    (ha : a = "left" ∨ a = "center" ∨ a = "right") :
    PsdRenderer.single_line_draw_origin textbboxWidth offset text w s a =
      .ok (alignedX (textbboxWidth text s) w a + offset.1 - s * (1 / 100),
        offset.2 - s * (26 / 100)) := by
  have h1 : ¬s ≤ 0 := not_le.mpr hs
  have h2 : ¬w < 0 := not_lt.mpr hw
  rcases ha with ha | ha | ha <;> subst ha <;>
    simp [PsdRenderer.single_line_draw_origin,
      PsdRenderer.calculate_text_position, text_position_core, alignedX,
      h1, h2] <;>
    constructor <;> ring

/-- C5 witness at concrete inputs. -/
theorem c5_single_line_origin_witness :
    PsdRenderer.single_line_draw_origin (fun _ _ => 5) (3, 4) "hi" 20 10
        "right" =
      .ok (alignedX 5 20 "right" + 3 - 10 * (1 / 100),
        4 - 10 * (26 / 100)) :=
  c5_single_line_origin (fun _ _ => 5) (3, 4) "hi" 20 10 "right"
    (by norm_num) (by norm_num) (Or.inr (Or.inr rfl))

/-- C6 counterexample: the claim says a layer name containing the pm
modifier is parsed with paragraph = false; but update_text_layer tests for
the substring _p, which "@x#t_pm" contains, so the text is laid out in
wrapped paragraph mode. -/
theorem c6_pm_paragraph_counterexample :
    (PsdRenderer.update_text_layer_mode "@x#t_pm").paragraph = true := by
  decide

/-- C6 amended: a text-directive layer name containing _pm or _pb is laid
out in paragraph (wrapped) mode, because those tokens contain the
substring _p that selects paragraph mode; the vertical alignment is middle
when _pm occurs, else bottom when _pb occurs; a bare p token in the same
name likewise selects paragraph mode and is not overridden. -/
theorem c6_pm_pb_paragraph_amended :
    (∀ name : String, pyIn "_pm" name = true →
      (PsdRenderer.update_text_layer_mode name).paragraph = true ∧
      (PsdRenderer.update_text_layer_mode name).valign = "middle") ∧
    (∀ name : String, pyIn "_pb" name = true → pyIn "_pm" name = false →
      (PsdRenderer.update_text_layer_mode name).paragraph = true ∧
      (PsdRenderer.update_text_layer_mode name).valign = "bottom") := by
  constructor
  · intro name hpm
    have hp : pyIn "_p" name = true :=
      containsSub_of_isPrefixOf_containsSub (by decide) name.data hpm
    constructor
    · simp [PsdRenderer.update_text_layer_mode, hp]
    · simp [PsdRenderer.update_text_layer_mode, pyIn] at hpm ⊢
      simp [hpm]
  · intro name hpb hpm
    have hp : pyIn "_p" name = true :=
      containsSub_of_isPrefixOf_containsSub (by decide) name.data hpb
    constructor
    · simp [PsdRenderer.update_text_layer_mode, hp]
    · simp [PsdRenderer.update_text_layer_mode, pyIn] at hpb hpm ⊢
      simp [hpb, hpm]

theorem splitOnChar_ne_nil (sep : Char) (cs : List Char) :
    splitOnChar sep cs ≠ [] := by
  cases cs with
  | nil => simp [splitOnChar]
  | cons c rest =>
    simp only [splitOnChar]
    by_cases h : c = sep
    · simp [h]
    · simp only [h, if_false]
      cases splitOnChar sep rest <;> simp

theorem splitOnChar_length (sep : Char) (cs : List Char) :
    (splitOnChar sep cs).length = cs.count sep + 1 := by
  induction cs with
  | nil => rfl
  | cons c rest ih =>
    simp only [splitOnChar, List.count_cons]
    by_cases h : c = sep
    · simp only [h, if_true]
      simp [List.length_cons, ih, h]
    · simp only [h, if_false]
      cases hr : splitOnChar sep rest with
      | nil => exact absurd hr (splitOnChar_ne_nil sep rest)
      | cons hh tt =>
        rw [hr] at ih
        simp only [List.length_cons] at ih ⊢
        have hb : (c == sep) = false := by
          simp [h]
        simp [hb, ih]

/-- C3: a layer name is treated as a directive exactly under the claim's
condition: it starts with the at sign and the remainder splits on the
hash sign into exactly two parts whose second part starts with t, i or v;
in particular a name with two or more hash signs after the at sign is
never a directive, witnessed also at the concrete names with a second
hash sign and with an unrecognized opcode. -/
theorem c3_directive_condition :
    (∀ name : String,
      (parse_directive name).isSome = claimDirective name) ∧
    (∀ name : String, 2 ≤ (pyTail name).data.count '#' →
      parse_directive name = Option.none) ∧
    parse_directive "@x#t#y" = Option.none ∧
    parse_directive "@x#z" = Option.none := by
  refine ⟨?_, ?_, by decide, by decide⟩
  · intro name
    by_cases h : pyStartsWith "@" name
    · simp only [parse_directive, claimDirective, h, if_true, Bool.true_and]
      cases hp : pySplit '#' (pyTail name) with
      | nil => simp
      | cons a t =>
        cases t with
        | nil => simp
        | cons b t2 =>
          cases t2 with
          | nil =>
            by_cases hv : pyStartsWith "v" b <;>
              by_cases ht : pyStartsWith "t" b <;>
                by_cases hi : pyStartsWith "i" b <;>
                  simp [hv, ht, hi]
          | cons d t3 => simp
    · simp [parse_directive, claimDirective, h]
  · intro name h2
    simp only [parse_directive]
    by_cases h : pyStartsWith "@" name
    · simp only [h, if_true]
      have hl : 3 ≤ (pySplit '#' (pyTail name)).length := by
        rw [pySplit, List.length_map, splitOnChar_length]
        omega
      cases hp : pySplit '#' (pyTail name) with
      | nil => rfl
      | cons a t =>
        cases t with
        | nil => rfl
        | cons b t2 =>
          cases t2 with
          | nil =>
            rw [hp] at hl
            simp at hl
          | cons d t3 => rfl
    · simp [h]

/-- C3 witness at concrete layer names: the equivalence instantiated, and
a name with two hash signs rejected through the counting conjunct. -/
theorem c3_directive_condition_witness :
    (parse_directive "@x#t").isSome = claimDirective "@x#t" ∧
    parse_directive "@a#b#c" = Option.none :=
  ⟨c3_directive_condition.1 "@x#t",
    c3_directive_condition.2.1 "@a#b#c" (by decide)⟩

/-- C6 amended witness at concrete layer names. -/
theorem c6_pm_pb_paragraph_amended_witness :
    ((PsdRenderer.update_text_layer_mode "@x#t_pm").paragraph = true ∧
      (PsdRenderer.update_text_layer_mode "@x#t_pm").valign = "middle") ∧
    ((PsdRenderer.update_text_layer_mode "@x#t_p_pb").paragraph = true ∧
      (PsdRenderer.update_text_layer_mode "@x#t_p_pb").valign = "bottom") :=
  ⟨c6_pm_pb_paragraph_amended.1 "@x#t_pm" (by decide),
    c6_pm_pb_paragraph_amended.2 "@x#t_p_pb" (by decide) (by decide)⟩

/-- C7: an i directive whose row value names a missing file yields no
exception, leaves the canvas operations untouched, logs exactly the
missing-file warning, and the remaining layers of the row are processed
from that state as usual. -/
theorem c7_missing_image_is_skipped (fs openOk : String → Bool)
    (textDraw : String → String → Except String (List CompositeOp))
    (row : List (String × Value)) (rest : List PLayer) (st : RenderState)
    (name : String) (size offset : Int × Int) (visible isGroup : Bool)
    (children : List PLayer) (raster : Option String)
    (field_name : String) (v : Value)
    (hparse : parse_directive name = some (field_name, OpKind.image))
    (hrow : row.lookup field_name = some v)
    (hfs : fs (pyStr v) = false) :
    processLayer fs openOk textDraw row
        (.mk name size offset visible isGroup children raster) st =
      .ok { st with warnings := st.warnings ++
        ["Warning: Image file " ++ pyStr v ++ " does not exist"] } ∧
    processLayers fs openOk textDraw row
        (.mk name size offset visible isGroup children raster :: rest) st =
      processLayers fs openOk textDraw row rest
        { st with warnings := st.warnings ++
          ["Warning: Image file " ++ pyStr v ++ " does not exist"] } := by
  have h1 : processLayer fs openOk textDraw row
      (.mk name size offset visible isGroup children raster) st =
      .ok { st with warnings := st.warnings ++
        ["Warning: Image file " ++ pyStr v ++ " does not exist"] } := by
    rw [processLayer]
    simp [hparse, hrow, update_image_layer, hfs]
  refine ⟨h1, ?_⟩
  rw [processLayers]
  simp [h1]

/-- C7 witness at a concrete layer, row and filesystem. -/
theorem c7_missing_image_is_skipped_witness :
    processLayer (fun _ => false) (fun _ => true) (fun _ _ => .ok [])
        [("img", Value.str "missing.png")]
        (.mk "@img#i" (4, 4) (0, 0) true false [] (some "r")) ⟨[], []⟩ =
      .ok { ops := [], warnings :=
        ["Warning: Image file " ++ pyStr (Value.str "missing.png") ++
          " does not exist"] } ∧
    processLayers (fun _ => false) (fun _ => true) (fun _ _ => .ok [])
        [("img", Value.str "missing.png")]
        [.mk "@img#i" (4, 4) (0, 0) true false [] (some "r")] ⟨[], []⟩ =
      processLayers (fun _ => false) (fun _ => true) (fun _ _ => .ok [])
        [("img", Value.str "missing.png")] [] { ops := [], warnings :=
          ["Warning: Image file " ++ pyStr (Value.str "missing.png") ++
            " does not exist"] } :=
  c7_missing_image_is_skipped (fun _ => false) (fun _ => true)
    (fun _ _ => .ok []) [("img", Value.str "missing.png")] [] ⟨[], []⟩
    "@img#i" (4, 4) (0, 0) true false [] (some "r") "img"
    (Value.str "missing.png") (by decide) (by decide) rfl

theorem image_col_errors_mem (fs : String → Bool) (image_col : String) :
    ∀ (vs : List Value) (start idx : ℕ) (v : Value),
      vs.get? idx = some v → notna v = true →
      (pyStrip (pyStr v)).isEmpty = false → fs (pyStr v) = false →
      ("Image file does not exist: Row " ++ toString (start + idx + 2) ++
        ", Column " ++ image_col ++ ", Path: " ++ pyStr v) ∈
        image_col_errors fs image_col start vs := by
  intro vs
  induction vs with
  | nil => intro start idx v hv; simp at hv
  | cons w ws ih =>
    intro start idx v hv hna hnb hfs
    cases idx with
    | zero =>
      simp only [List.get?] at hv
      injection hv with hv
      subst hv
      simp only [image_col_errors, hna, hnb, hfs]
      simp
    | succ n =>
      simp only [List.get?] at hv
      have := ih (start + 1) n v hv hna hnb hfs
      simp only [image_col_errors]
      rw [List.mem_append]
      right
      have harith : start + 1 + n + 2 = start + (n + 1) + 2 := by omega
      rw [harith] at this
      exact this

/-- C8: a non-blank image path referenced by a row in a column bound to an
i directive of a matched template, when the file does not exist, yields
the corresponding validation error, and psd_renderer_images then exits
with status 1 without rendering anything.  The final conjunct records the
general policy: any validation error makes the run exit 1 before the
render loop. -/
theorem c8_missing_image_blocks_batch (fs : String → Bool)
    (psdTree : String → List PLayer) (loadOk : String → Bool)
    (df : DataFrame) (templates : List String)
    (renderAll : Unit → List String) (image_col : String) (idx : ℕ)
    (v : Value)
    (hcol : image_col ∈ (templates.filter (fun p => fs p)).flatMap
      (fun p => check_image_layers (psdTree p)))
    (hdf : df.columns.contains image_col = true)
    (hv : (df.colData image_col).get? idx = some v)
    (hna : notna v = true)
    (hnb : (pyStrip (pyStr v)).isEmpty = false)
    (hfs : fs (pyStr v) = false) :
    ("Image file does not exist: Row " ++ toString (idx + 2) ++
      ", Column " ++ image_col ++ ", Path: " ++ pyStr v) ∈
      (validate_data fs psdTree df templates).1 ∧
    psd_renderer_images fs psdTree loadOk df templates renderAll =
      .exited 1 := by
  have hmem : ("Image file does not exist: Row " ++ toString (idx + 2) ++
      ", Column " ++ image_col ++ ", Path: " ++ pyStr v) ∈
      (validate_data fs psdTree df templates).1 := by
    have h0 := image_col_errors_mem fs image_col (df.colData image_col)
      0 idx v hv hna hnb hfs
    rw [Nat.zero_add] at h0
    simp only [validate_data]
    rw [List.mem_append]
    right
    rw [List.mem_flatMap]
    refine ⟨image_col, hcol, ?_⟩
    rw [hdf]
    simpa using h0
  refine ⟨hmem, ?_⟩
  simp only [psd_renderer_images, report_validation_results]
  have hne : (validate_data fs psdTree df templates).1.isEmpty = false := by
    cases he : (validate_data fs psdTree df templates).1 with
    | nil => rw [he] at hmem; simp at hmem
    | cons a l => simp
  simp [hne]

/-- C8 witness at a concrete spreadsheet, template tree and filesystem. -/
theorem c8_missing_image_blocks_batch_witness :
    ("Image file does not exist: Row " ++ toString (0 + 2) ++
      ", Column " ++ "img" ++ ", Path: " ++ pyStr (Value.str "gone.png")) ∈
      (validate_data (fun s => s == "1.psd")
        (fun _ => [.mk "@img#i" (2, 2) (0, 0) true false [] Option.none])
        ⟨["File_name", "img"],
          fun c => if c == "img" then [Value.str "gone.png"]
            else [Value.str "a"]⟩ ["1.psd"]).1 ∧
    psd_renderer_images (fun s => s == "1.psd")
        (fun _ => [.mk "@img#i" (2, 2) (0, 0) true false [] Option.none])
        (fun _ => true)
        ⟨["File_name", "img"],
          fun c => if c == "img" then [Value.str "gone.png"]
            else [Value.str "a"]⟩ ["1.psd"] (fun _ => []) =
      .exited 1 :=
  c8_missing_image_blocks_batch (fun s => s == "1.psd")
    (fun _ => [.mk "@img#i" (2, 2) (0, 0) true false [] Option.none])
    (fun _ => true)
    ⟨["File_name", "img"],
      fun c => if c == "img" then [Value.str "gone.png"]
        else [Value.str "a"]⟩ ["1.psd"] (fun _ => []) "img" 0
    (Value.str "gone.png")
    (by
      have hps : pySplit '#' (pyTail "@img#i") = ["img", "i"] := rfl
      have hsw : pyStartsWith "@" "@img#i" = true := rfl
      have hii : pyStartsWith "i" "i" = true := rfl
      simp [check_image_layers, hps, hsw, hii, is_image_column])
    (by decide) rfl (by decide) (by decide) rfl

/-- C9 counterexample: with no font file openable at all, measurement
still succeeds, silently substituting PIL's built-in default font with an
empty warning list, contradicting the claim that a font-load failure
makes measurement fail and is never silently substituted without a
warning. -/
theorem c9_silent_measurement_fallback_counterexample :
    PsdRenderer.measurement_font_choice (fun _ => false) (fun _ => false) =
      (PsdRenderer.MeasureFont.pilBuiltinDefault, []) := rfl

/-- C9 amended: drawing in update_text_layer fails with a font-load error
whenever the configured font cannot be opened; measurement in
calculate_text_position never consults the configured font: it tries the
hard-coded bundled font path and on any failure silently substitutes
PIL's built-in default font, surfacing no warning in any case. -/
theorem c9_font_load_amended :
    (∀ (truetypeOk : String → Bool) (text_font : String),
      truetypeOk text_font = false →
      PsdRenderer.rendering_font_choice truetypeOk text_font =
        .error ("OSError: cannot open font resource " ++ text_font)) ∧
    (∀ fs truetypeOk : String → Bool,
      fs PsdRenderer.defaultMeasurementFontPath = false →
      PsdRenderer.measurement_font_choice fs truetypeOk =
        (PsdRenderer.MeasureFont.pilBuiltinDefault, [])) ∧
    (∀ fs truetypeOk : String → Bool,
      (PsdRenderer.measurement_font_choice fs truetypeOk).2 = []) := by
  refine ⟨?_, ?_, ?_⟩
  · intro truetypeOk text_font h
    simp [PsdRenderer.rendering_font_choice, h]
  · intro fs truetypeOk h
    simp [PsdRenderer.measurement_font_choice, h]
  · intro fs truetypeOk
    simp only [PsdRenderer.measurement_font_choice]
    by_cases h1 : fs PsdRenderer.defaultMeasurementFontPath <;>
      by_cases h2 : truetypeOk PsdRenderer.defaultMeasurementFontPath <;>
        simp [h1, h2]

/-- C9 amended witness at concrete oracles. -/
theorem c9_font_load_amended_witness :
    PsdRenderer.rendering_font_choice (fun _ => false) "Custom.ttf" =
      .error ("OSError: cannot open font resource " ++ "Custom.ttf") ∧
    PsdRenderer.measurement_font_choice (fun _ => false) (fun _ => true) =
      (PsdRenderer.MeasureFont.pilBuiltinDefault, []) :=
  ⟨c9_font_load_amended.1 (fun _ => false) "Custom.ttf" rfl,
    c9_font_load_amended.2.1 (fun _ => false) (fun _ => true) rfl⟩

theorem takeWhile_no_hash (cs : List Char)
    (h : cs.contains '#' = false) :
    cs.takeWhile (fun c => c != '#') = cs := by
  induction cs with
  | nil => rfl
  | cons c rest ih =>
    simp only [List.contains_cons, Bool.or_eq_false_iff] at h
    simp only [List.takeWhile_cons]
    have hc : (c != '#') = true := by
      have := h.1
      simp only [beq_eq_false_iff_ne] at this
      simp only [bne_iff_ne, ne_eq]
      intro hcc
      exact this hcc.symm
    rw [hc]
    simp [ih h.2]

/-- C10: a .psd file from the working-directory listing is selected for a
spreadsheet exactly when the part of its base name before the first hash
sign (the whole base name when it has none) equals the spreadsheet's base
name. -/
theorem c10_template_matching (listing : List String)
    (excel_file f : String) :
    f ∈ get_matching_psds excel_file listing ↔
      f ∈ listing ∧ pyEndsWith ".psd" f = true ∧
        stemBeforeHash f = (splitext excel_file).1 := by
  simp only [get_matching_psds, List.mem_filter, Bool.and_eq_true]
  constructor
  · rintro ⟨hmem, hpsd, hcond⟩
    refine ⟨hmem, hpsd, ?_⟩
    simp only [beq_iff_eq] at hcond
    rw [stemBeforeHash]
    by_cases hc : (splitext f).1.data.contains '#'
    · simp only [hc, if_true] at hcond
      exact hcond
    · simp only [Bool.not_eq_true] at hc
      simp only [hc, Bool.false_eq_true, if_false] at hcond
      rw [takeWhile_no_hash _ hc]
      exact hcond
  · rintro ⟨hmem, hpsd, hstem⟩
    refine ⟨hmem, hpsd, ?_⟩
    simp only [beq_iff_eq]
    rw [stemBeforeHash] at hstem
    by_cases hc : (splitext f).1.data.contains '#'
    · simp only [hc, if_true]
      exact hstem
    · simp only [Bool.not_eq_true] at hc
      simp only [hc, Bool.false_eq_true, if_false]
      rw [takeWhile_no_hash _ hc] at hstem
      exact hstem

theorem hShift_cover {leftover : ℚ} (h : leftover ≤ 0) (a : HAnchor) :
    leftover ≤ hShift a leftover ∧ hShift a leftover ≤ 0 := by
  cases a <;> simp only [hShift] <;> constructor <;> linarith

theorem vShift_cover {leftover : ℚ} (h : leftover ≤ 0) (a : VAnchor) :
    leftover ≤ vShift a leftover ∧ vShift a leftover ≤ 0 := by
  cases a <;> simp only [vShift] <;> constructor <;> linarith

theorem hShift_contain {leftover : ℚ} (h : 0 ≤ leftover) (a : HAnchor) :
    0 ≤ hShift a leftover ∧ hShift a leftover ≤ leftover := by
  cases a <;> simp only [hShift] <;> constructor <;> linarith

theorem vShift_contain {leftover : ℚ} (h : 0 ≤ leftover) (a : VAnchor) :
    0 ≤ vShift a leftover ∧ vShift a leftover ≤ leftover := by
  cases a <;> simp only [vShift] <;> constructor <;> linarith

/-- C4, settled against the spec-modelled ImageFitter: the output always
has exactly the target dimensions; the content is scaled by one common
factor, so the source aspect ratio is never distorted; under cover the
content covers the whole target (the anchor positions a crop window), and
under contain the content lies inside the target (the anchor positions
the image within transparent padding). -/
theorem c4_image_fitter (srcW srcH targetW targetH : ℚ) (mode : FitMode)
    (ha : HAnchor) (va : VAnchor) (hw : 0 < srcW) (hh : 0 < srcH)
    (_hW : 0 < targetW) (_hH : 0 < targetH) :
    (scale_image_by_mode srcW srcH targetW targetH mode ha va).outSize =
      (targetW, targetH) ∧
    (scale_image_by_mode srcW srcH targetW targetH mode ha va).contentSize.1
        * srcH =
      (scale_image_by_mode srcW srcH targetW targetH mode ha va).contentSize.2
        * srcW ∧
    (mode = FitMode.cover →
      (scale_image_by_mode srcW srcH targetW targetH mode ha va).contentPos.1
          ≤ 0 ∧
      (scale_image_by_mode srcW srcH targetW targetH mode ha va).contentPos.2
          ≤ 0 ∧
      targetW ≤
        (scale_image_by_mode srcW srcH targetW targetH mode ha va).contentPos.1
          + (scale_image_by_mode srcW srcH targetW targetH mode
            ha va).contentSize.1 ∧
      targetH ≤
        (scale_image_by_mode srcW srcH targetW targetH mode ha va).contentPos.2
          + (scale_image_by_mode srcW srcH targetW targetH mode
            ha va).contentSize.2) ∧
    (mode = FitMode.contain →
      0 ≤
        (scale_image_by_mode srcW srcH targetW targetH mode
          ha va).contentPos.1 ∧
      0 ≤
        (scale_image_by_mode srcW srcH targetW targetH mode
          ha va).contentPos.2 ∧
      (scale_image_by_mode srcW srcH targetW targetH mode ha va).contentPos.1
          + (scale_image_by_mode srcW srcH targetW targetH mode
            ha va).contentSize.1 ≤ targetW ∧
      (scale_image_by_mode srcW srcH targetW targetH mode ha va).contentPos.2
          + (scale_image_by_mode srcW srcH targetW targetH mode
            ha va).contentSize.2 ≤ targetH) := by
  refine ⟨rfl, by simp [scale_image_by_mode]; ring, ?_, ?_⟩
  · intro hm
    subst hm
    simp only [scale_image_by_mode]
    have hscaleW : targetW ≤ srcW * max (targetW / srcW) (targetH / srcH) := by
      have h1 : targetW / srcW ≤ max (targetW / srcW) (targetH / srcH) :=
        le_max_left _ _
      calc targetW = srcW * (targetW / srcW) := by field_simp
        _ ≤ srcW * max (targetW / srcW) (targetH / srcH) := by
            exact mul_le_mul_of_nonneg_left h1 (le_of_lt hw)
    have hscaleH : targetH ≤ srcH * max (targetW / srcW) (targetH / srcH) := by
      have h1 : targetH / srcH ≤ max (targetW / srcW) (targetH / srcH) :=
        le_max_right _ _
      calc targetH = srcH * (targetH / srcH) := by field_simp
        _ ≤ srcH * max (targetW / srcW) (targetH / srcH) := by
            exact mul_le_mul_of_nonneg_left h1 (le_of_lt hh)
    have hx := @hShift_cover
      (targetW - srcW * max (targetW / srcW) (targetH / srcH))
      (by linarith) ha
    have hy := @vShift_cover
      (targetH - srcH * max (targetW / srcW) (targetH / srcH))
      (by linarith) va
    exact ⟨hx.2, hy.2, by linarith [hx.1], by linarith [hy.1]⟩
  · intro hm
    subst hm
    simp only [scale_image_by_mode]
    have hscaleW : srcW * min (targetW / srcW) (targetH / srcH) ≤ targetW := by
      have h1 : min (targetW / srcW) (targetH / srcH) ≤ targetW / srcW :=
        min_le_left _ _
      calc srcW * min (targetW / srcW) (targetH / srcH)
          ≤ srcW * (targetW / srcW) :=
            mul_le_mul_of_nonneg_left h1 (le_of_lt hw)
        _ = targetW := by field_simp
    have hscaleH : srcH * min (targetW / srcW) (targetH / srcH) ≤ targetH := by
      have h1 : min (targetW / srcW) (targetH / srcH) ≤ targetH / srcH :=
        min_le_right _ _
      calc srcH * min (targetW / srcW) (targetH / srcH)
          ≤ srcH * (targetH / srcH) :=
            mul_le_mul_of_nonneg_left h1 (le_of_lt hh)
        _ = targetH := by field_simp
    have hx := @hShift_contain
      (targetW - srcW * min (targetW / srcW) (targetH / srcH))
      (by linarith) ha
    have hy := @vShift_contain
      (targetH - srcH * min (targetW / srcW) (targetH / srcH))
      (by linarith) va
    exact ⟨hx.1, hy.1, by linarith [hx.2], by linarith [hy.2]⟩

/-- C4 witness at a concrete landscape source and square target. -/
theorem c4_image_fitter_witness :
    (scale_image_by_mode 2 1 3 3 FitMode.cover HAnchor.c
        VAnchor.m).outSize = (3, 3) ∧
    (scale_image_by_mode 2 1 3 3 FitMode.cover HAnchor.c
        VAnchor.m).contentSize.1 * 1 =
      (scale_image_by_mode 2 1 3 3 FitMode.cover HAnchor.c
        VAnchor.m).contentSize.2 * 2 :=
  ⟨(c4_image_fitter 2 1 3 3 FitMode.cover HAnchor.c VAnchor.m
      (by norm_num) (by norm_num) (by norm_num) (by norm_num)).1,
    (c4_image_fitter 2 1 3 3 FitMode.cover HAnchor.c VAnchor.m
      (by norm_num) (by norm_num) (by norm_num) (by norm_num)).2.1⟩

end ExcelPs
